import Mathlib

/-!
Verification development for the abunda knowledge assistant.

The development shallowly embeds the two backend variants of the RAG engine
(src/backend/rag_engine.py, whose AbundaBrain src/backend/main.py duplicates
up to message strings) and the Gemini chat endpoint (src/abunda/main.py).
Calls into external dependencies (qdrant, the LLM, the document loader) are
modelled by explicit outcome parameters: each operation takes the outcomes of
the dependency calls it makes as input, and the control flow around those
outcomes is translated from the source line by line.
-/

/-- Identifier of a fragment stored in the vector collection. -/
abbrev FragmentId := String

/-- Payload stored with a fragment id: its embedding vector and metadata. -/
structure StoredFragment where
  vec : List Int
  meta : String
  deriving DecidableEq, Repr

/-- Content of the qdrant collection: fragment id with stored payload, in
insertion order. -/
abbrev Collection := List (FragmentId × StoredFragment)

/-- Outcome of one call into an external dependency: a returned value, or a
raised exception carrying its message. -/
inductive DepResult (α : Type) where
  | ok : α → DepResult α
  | exn : String → DepResult α

/-- A Python exception as seen at the service boundaries: a transport-level
dependency error, or a FastAPI HTTPException with status and detail. -/
inductive PyExn where
  | transport : String → PyExn
  | http : Nat → String → PyExn
  deriving DecidableEq, Repr

/-- Modelled from the spec (section 4.3, Vector Store Adapter, an external
capability consumed by the code): upsert is idempotent per FragmentId, so
re-upserting an existing id replaces its payload in place while a new id is
appended at the end. -/
def upsertOne (c : Collection) (i : FragmentId) (f : StoredFragment) : Collection :=
  if i ∈ c.map Prod.fst then
    c.map (fun p => if p.1 = i then (i, f) else p)
  else
    c ++ [(i, f)]

/-- Upsert a batch of fragments into the collection, in order. -/
def upsertAll (c : Collection) (fs : List (FragmentId × StoredFragment)) : Collection :=
  fs.foldl (fun acc p => upsertOne acc p.1 p.2) c

/-- Fragment ids present in a collection. -/
def keys (c : Collection) : List FragmentId := c.map Prod.fst

/-- State of the AbundaBrain singleton (src/backend/rag_engine.py): `active`
is `self.active`, `hasIndex` records whether `self.index` is not None, and
`store` is the content of the qdrant collection behind the index. -/
structure AbundaBrain where
  active : Bool
  hasIndex : Bool
  store : Collection
  deriving Repr

/-- Outcomes of the external calls made by `AbundaBrain.__init__`:
whether the Ollama / embedding-model setup raises, whether the qdrant
connection test `get_collections` raises, whether `StorageContext`
construction raises, whether `VectorStoreIndex.from_vector_store` succeeds,
and the persisted collection content found in qdrant. -/
structure InitEnv where
  llmSetupOk : Bool
  qdrantOk : Bool
  storageOk : Bool
  loadIndexOk : Bool
  initialStore : Collection

/-- AbundaBrain.__init__ (src/backend/rag_engine.py lines 29-83): `active`
starts False and `index` None; a raising LLM / embedding setup is caught by
the outer except with `active = False`; a failing qdrant connection test
returns early with `active = False`; a raising index load is caught with
`index = None`; otherwise `active = True` with the index loaded. -/
def initBrain (env : InitEnv) : AbundaBrain :=
  if env.llmSetupOk = false then ⟨false, false, env.initialStore⟩
  else if env.qdrantOk = false then ⟨false, false, env.initialStore⟩
  else if env.storageOk = false then ⟨false, false, env.initialStore⟩
  else if env.loadIndexOk then ⟨true, true, env.initialStore⟩
  else ⟨true, false, env.initialStore⟩

/-- One document returned by `SimpleDirectoryReader.load_data`, carrying the
id-keyed fragments the indexing pipeline upserts for it. -/
structure Doc where
  fragments : List (FragmentId × StoredFragment)

/-- All fragments of a list of loaded documents, in order. -/
def allFragments (docs : List Doc) : List (FragmentId × StoredFragment) :=
  (docs.map Doc.fragments).flatten

/-- Outcomes of the external calls made by `AbundaBrain.ingest_document`:
the result of `load_data` (documents, or a raised exception), whether
`VectorStoreIndex.from_documents` succeeds when the index does not exist yet,
and which documents the per-document `index.insert` call raises on. -/
structure IngestEnv where
  loadResult : DepResult (List Doc)
  fromDocsOk : Bool
  insertFails : Doc → Bool

/-- The per-document insertion loop of `ingest_document` (src/backend/
rag_engine.py lines 104-106): documents are inserted in order and a raising
insert aborts the loop, leaving the fragments committed so far in place. -/
def insertLoop (c : Collection) (docs : List Doc) (fails : Doc → Bool) :
    Collection × Bool :=
  match docs with
  | [] => (c, true)
  | d :: rest =>
      if fails d then (c, false)
      else insertLoop (upsertAll c d.fragments) rest fails

/-- What one `ingest_document` call produces: the brain state afterwards, the
bool returned to the caller, and the messages written to the server logger. -/
structure IngestResult where
  state : AbundaBrain
  retVal : Bool
  logs : List String

/-- The success log line of `ingest_document`, which is the only place the
fragment count appears. -/
def countMsg (docs : List Doc) : String :=
  "Document processed (" ++ toString docs.length ++ " fragments)."

/-- AbundaBrain.ingest_document (src/backend/rag_engine.py lines 85-112): an
inactive brain returns False; otherwise the whole chunk-embed-upsert sequence
runs under one try whose except logs the error and returns False; the
index-None branch creates the index from the documents, the other branch
inserts document by document; on success the call returns True and logs the
fragment count. -/
def AbundaBrain.ingest_document (s : AbundaBrain) (file_path : String)
    (env : IngestEnv) : IngestResult :=
  if s.active = false then
    ⟨s, false, ["Attempted ingestion with inactive brain."]⟩
  else
    match env.loadResult with
    | DepResult.exn m =>
        ⟨s, false, ["Learning document: " ++ file_path, "Ingestion Error: " ++ m]⟩
    | DepResult.ok docs =>
        if s.hasIndex = false then
          if env.fromDocsOk then
            ⟨⟨s.active, true, upsertAll s.store (allFragments docs)⟩, true,
              ["Learning document: " ++ file_path, countMsg docs]⟩
          else
            ⟨s, false,
              ["Learning document: " ++ file_path,
               "Ingestion Error: index creation failed"]⟩
        else
          if (insertLoop s.store docs env.insertFails).2 then
            ⟨⟨s.active, s.hasIndex, (insertLoop s.store docs env.insertFails).1⟩,
              true, ["Learning document: " ++ file_path, countMsg docs]⟩
          else
            ⟨⟨s.active, s.hasIndex, (insertLoop s.store docs env.insertFails).1⟩,
              false,
              ["Learning document: " ++ file_path,
               "Ingestion Error: insert failed"]⟩

/-- Outcomes `AbundaBrain.query` can return; each constructor carries the
exact string the source returns in that branch. -/
inductive QueryOutcome where
  | unavailable : String → QueryOutcome
  | emptyKB : String → QueryOutcome
  | answer : String → QueryOutcome
  | genError : String → QueryOutcome
  deriving DecidableEq, Repr

/-- The value `AbundaBrain.query` hands back, together with whether the
retrieval / generation dependency call was made. -/
structure QueryResult where
  outcome : QueryOutcome
  providerCalled : Bool
  deriving DecidableEq, Repr

/-- Fixed string returned by `query` when the brain is inactive
(src/backend/rag_engine.py line 117). -/
def disconnectedMsg : String :=
  "Error: Brain is disconnected. Please check Docker (Qdrant) and Ollama."

/-- Fixed string returned by `query` when no index exists yet (line 122). -/
def noKnowledgeMsg : String :=
  "I have no knowledge stored yet. Please upload a document to the Knowledge Base first."

/-- Prefix of the string returned by the except clause of `query` (line 133). -/
def queryErrorPrefix : String :=
  "An error occurred while generating the response: "

/-- AbundaBrain.query (src/backend/rag_engine.py lines 114-133), Except-valued
so the exception interface is explicit: the try/except at lines 124-133
converts a raised dependency exception into the returned error string, so
every branch produces `Except.ok`; `self.active` and `self.index` are never
written, so the state in the result is the input state. -/
def AbundaBrain.query (s : AbundaBrain) (env : DepResult String) :
    Except PyExn (AbundaBrain × QueryResult) :=
  if s.active = false then
    Except.ok (s, ⟨QueryOutcome.unavailable disconnectedMsg, false⟩)
  else if s.hasIndex = false then
    Except.ok (s, ⟨QueryOutcome.emptyKB noKnowledgeMsg, false⟩)
  else
    match env with
    | DepResult.ok t => Except.ok (s, ⟨QueryOutcome.answer t, true⟩)
    | DepResult.exn m =>
        Except.ok (s, ⟨QueryOutcome.genError (queryErrorPrefix ++ m), true⟩)

/-- One public operation applied to the brain singleton. -/
inductive Op where
  | ingestOp : String → IngestEnv → Op
  | queryOp : DepResult String → Op

/-- Apply one operation to the brain state, keeping only the state. -/
def stepOp (s : AbundaBrain) : Op → AbundaBrain
  | Op.ingestOp p e => (s.ingest_document p e).state
  | Op.queryOp e =>
      match s.query e with
      | Except.ok (st, _) => st
      | Except.error _ => s

/-- Run a sequence of operations against the brain state. -/
def runOps (s : AbundaBrain) (ops : List Op) : AbundaBrain :=
  ops.foldl stepOp s

/-- A message of the request history (src/abunda/main.py, ChatMessage). -/
structure ChatMessage where
  role : String
  content : String

/-- The history-preparation loop of chat_endpoint (src/abunda/main.py lines
117-122): each message is relabeled to role "user" or "model" and appended as
(role, parts) when its content is non-empty. -/
def prepareHistory (history : List ChatMessage) :
    List (String × List String) :=
  history.foldl (fun acc msg =>
    if msg.content = "" then acc
    else acc ++ [((if msg.role = "user" then "user" else "model"), [msg.content])]) []

/-- Claim-side characterization of the history preparation, written from the
claim wording: drop messages with empty content, relabel every role that is
not exactly "user" to "model", keep the relative order. -/
def prepareHistoryClaim (history : List ChatMessage) :
    List (String × List String) :=
  (history.filter (fun m => !(m.content == ""))).map
    (fun m => ((if m.role = "user" then "user" else "model"), [m.content]))

/-- Outcomes of the external calls made by chat_endpoint: whether the API key
is configured, whether the module-level model is already built, whether
`initialize_model` succeeds when it is not, the selected model name, and the
result of `send_message` as a function of the prepared history and message. -/
structure ChatEnv where
  apiKeyPresent : Bool
  modelReady : Bool
  initModelOk : Bool
  modelName : String
  sendResult : List (String × List String) → String → DepResult String

/-- The message text interpolated into the 500 detail by chat_endpoint. -/
def PyExn.message : PyExn → String
  | PyExn.transport m => m
  | PyExn.http _ d => d

/-- The try block of chat_endpoint (src/abunda/main.py lines 108-131): missing
API key and unbuildable model raise HTTPException 500; the prepared history is
handed to the chat session; a raising `send_message` propagates; on success
the JSON body carries the response text, a hard-coded empty sources list, and
the model name. -/
def chatTry (env : ChatEnv) (history : List ChatMessage) (message : String) :
    Except PyExn (String × List String × String) :=
  if env.apiKeyPresent = false then
    Except.error (PyExn.http 500 "API Key no configurada en Heroku.")
  else if (env.modelReady || env.initModelOk) = false then
    Except.error (PyExn.http 500 "Fallo critico al iniciar el modelo Gemini.")
  else
    match env.sendResult (prepareHistory history) message with
    | DepResult.ok t => Except.ok (t, [], env.modelName)
    | DepResult.exn m => Except.error (PyExn.transport m)

/-- chat_endpoint (src/abunda/main.py lines 105-140): the except Exception
block at lines 133-140 converts any raised exception into an HTTPException
500 whose detail wraps the original message. -/
def chat_endpoint (env : ChatEnv) (history : List ChatMessage)
    (message : String) : Except PyExn (String × List String × String) :=
  match chatTry env history message with
  | Except.ok r => Except.ok r
  | Except.error e =>
      Except.error (PyExn.http 500 ("Error interno del servidor: " ++ e.message))

/-- The QueryResult that `query` produces on a given state and dependency
outcome; used to characterize `query` in the proofs below. -/
def queryRes (s : AbundaBrain) (e : DepResult String) : QueryResult :=
  if s.active = false then ⟨QueryOutcome.unavailable disconnectedMsg, false⟩
  else if s.hasIndex = false then ⟨QueryOutcome.emptyKB noKnowledgeMsg, false⟩
  else
    match e with
    | DepResult.ok t => ⟨QueryOutcome.answer t, true⟩
    | DepResult.exn m => ⟨QueryOutcome.genError (queryErrorPrefix ++ m), true⟩

theorem upsertAll_nil (c : Collection) : upsertAll c [] = c := rfl

theorem upsertAll_cons (c : Collection) (p : FragmentId × StoredFragment)
    (rest : List (FragmentId × StoredFragment)) :
    upsertAll c (p :: rest) = upsertAll (upsertOne c p.1 p.2) rest := rfl

theorem upsertAll_append (c : Collection)
    (a b : List (FragmentId × StoredFragment)) :
    upsertAll c (a ++ b) = upsertAll (upsertAll c a) b := by
  unfold upsertAll
  exact List.foldl_append _ _ a b

theorem keys_upsertOne_mem (c : Collection) (i : FragmentId)
    (f : StoredFragment) (h : i ∈ keys c) :
    keys (upsertOne c i f) = keys c := by
  unfold keys at *
  unfold upsertOne
  simp only [h, if_pos, List.map_map]
  apply List.map_congr_left
  intro p _
  by_cases hp : p.1 = i
  · simp [hp]
  · simp [hp]

theorem keys_upsertOne_not_mem (c : Collection) (i : FragmentId)
    (f : StoredFragment) (h : i ∉ keys c) :
    keys (upsertOne c i f) = keys c ++ [i] := by
  unfold keys at *
  unfold upsertOne
  simp [h]

theorem length_upsertOne_mem (c : Collection) (i : FragmentId)
    (f : StoredFragment) (h : i ∈ keys c) :
    (upsertOne c i f).length = c.length := by
  unfold keys at h
  unfold upsertOne
  simp [h]

theorem mem_keys_upsertOne_of_mem (c : Collection) (i a : FragmentId)
    (f : StoredFragment) (h : a ∈ keys c) :
    a ∈ keys (upsertOne c i f) := by
  by_cases hm : i ∈ keys c
  · rw [keys_upsertOne_mem c i f hm]; exact h
  · rw [keys_upsertOne_not_mem c i f hm]; exact List.mem_append_left _ h

theorem self_mem_keys_upsertOne (c : Collection) (i : FragmentId)
    (f : StoredFragment) : i ∈ keys (upsertOne c i f) := by
  by_cases hm : i ∈ keys c
  · rw [keys_upsertOne_mem c i f hm]; exact hm
  · rw [keys_upsertOne_not_mem c i f hm]; simp

theorem mem_keys_upsertAll_of_mem (c : Collection)
    (fs : List (FragmentId × StoredFragment)) (a : FragmentId)
    (h : a ∈ keys c) : a ∈ keys (upsertAll c fs) := by
  induction fs generalizing c with
  | nil => exact h
  | cons p rest ih =>
      rw [upsertAll_cons]
      exact ih _ (mem_keys_upsertOne_of_mem c p.1 a p.2 h)

theorem fst_mem_keys_upsertAll (c : Collection)
    (fs : List (FragmentId × StoredFragment)) (p : FragmentId × StoredFragment)
    (h : p ∈ fs) : p.1 ∈ keys (upsertAll c fs) := by
  induction fs generalizing c with
  | nil => cases h
  | cons q rest ih =>
      rw [upsertAll_cons]
      rcases List.mem_cons.mp h with h1 | h2
      · subst h1
        exact mem_keys_upsertAll_of_mem _ rest p.1
          (self_mem_keys_upsertOne c p.1 p.2)
      · exact ih _ h2

theorem length_upsertAll_of_keys_sub (c : Collection)
    (fs : List (FragmentId × StoredFragment))
    (h : ∀ p ∈ fs, p.1 ∈ keys c) :
    (upsertAll c fs).length = c.length := by
  induction fs generalizing c with
  | nil => rfl
  | cons q rest ih =>
      rw [upsertAll_cons]
      have hq : q.1 ∈ keys c := h q (List.mem_cons_self q rest)
      have hk : keys (upsertOne c q.1 q.2) = keys c :=
        keys_upsertOne_mem c q.1 q.2 hq
      rw [ih _ (fun p hp => by rw [hk]; exact h p (List.mem_cons_of_mem q hp))]
      exact length_upsertOne_mem c q.1 q.2 hq

theorem length_upsertAll_idem (c : Collection)
    (fs : List (FragmentId × StoredFragment)) :
    (upsertAll (upsertAll c fs) fs).length = (upsertAll c fs).length :=
  length_upsertAll_of_keys_sub _ _ (fun p hp => fst_mem_keys_upsertAll c fs p hp)

theorem allFragments_nil : allFragments [] = [] := rfl

theorem allFragments_cons (d : Doc) (rest : List Doc) :
    allFragments (d :: rest) = d.fragments ++ allFragments rest := by
  unfold allFragments
  simp

theorem insertLoop_true_iff (c : Collection) (docs : List Doc)
    (fails : Doc → Bool) :
    (insertLoop c docs fails).2 = true ↔ ∀ d ∈ docs, fails d = false := by
  induction docs generalizing c with
  | nil => simp [insertLoop]
  | cons d rest ih =>
      unfold insertLoop
      by_cases h : fails d = true
      · simp [h]
      · simp only [Bool.not_eq_true] at h
        simp [h, ih]

theorem insertLoop_store_of_no_fail (c : Collection) (docs : List Doc)
    (fails : Doc → Bool) (h : ∀ d ∈ docs, fails d = false) :
    (insertLoop c docs fails).1 = upsertAll c (allFragments docs) := by
  induction docs generalizing c with
  | nil => simp [insertLoop, allFragments_nil, upsertAll_nil]
  | cons d rest ih =>
      unfold insertLoop
      have hd : fails d = false := h d (List.mem_cons_self d rest)
      simp only [hd, Bool.false_eq_true, if_neg, ite_false]
      rw [allFragments_cons, upsertAll_append]
      exact ih _ (fun x hx => h x (List.mem_cons_of_mem d hx))

theorem insertLoop_false_of_fail (c : Collection) (docs : List Doc)
    (fails : Doc → Bool) (h : ∃ d ∈ docs, fails d = true) :
    (insertLoop c docs fails).2 = false := by
  rcases Bool.eq_false_or_eq_true (insertLoop c docs fails).2 with ht | hf
  swap
  · exact hf
  · rcases h with ⟨d, hd, hfail⟩
    have := (insertLoop_true_iff c docs fails).mp ht d hd
    rw [this] at hfail
    cases hfail

theorem query_eq (s : AbundaBrain) (e : DepResult String) :
    s.query e = Except.ok (s, queryRes s e) := by
  unfold AbundaBrain.query queryRes
  by_cases ha : s.active = false
  · simp [ha]
  · by_cases hi : s.hasIndex = false
    · simp [ha, hi]
    · cases e with
      | ok t => simp [ha, hi]
      | exn m => simp [ha, hi]

theorem stepOp_query_state (s : AbundaBrain) (e : DepResult String) :
    stepOp s (Op.queryOp e) = s := by
  simp only [stepOp]
  rw [query_eq]

theorem ingest_state_active (s : AbundaBrain) (p : String) (env : IngestEnv) :
    (s.ingest_document p env).state.active = s.active := by
  unfold AbundaBrain.ingest_document
  split
  · rfl
  · split
    · rfl
    · split
      · split <;> rfl
      · split <;> rfl

theorem ingest_retVal_hasIndex (s : AbundaBrain) (p : String) (env : IngestEnv)
    (h : (s.ingest_document p env).retVal = true) :
    (s.ingest_document p env).state.hasIndex = true := by
  by_cases ha : s.active = false
  · simp [AbundaBrain.ingest_document, ha] at h
  · cases hload : env.loadResult with
    | exn m => simp [AbundaBrain.ingest_document, ha, hload] at h
    | ok docs =>
        by_cases hi : s.hasIndex = false
        · by_cases hf : env.fromDocsOk
          · simp [AbundaBrain.ingest_document, ha, hload, hi, hf]
          · simp [AbundaBrain.ingest_document, ha, hload, hi, hf] at h
        · simp only [Bool.not_eq_false] at hi
          by_cases hk : (insertLoop s.store docs env.insertFails).2
          · simp [AbundaBrain.ingest_document, ha, hload, hi, hk]
          · simp [AbundaBrain.ingest_document, ha, hload, hi, hk] at h

theorem ingest_state_hasIndex_mono (s : AbundaBrain) (p : String)
    (env : IngestEnv) (hi : s.hasIndex = true) :
    (s.ingest_document p env).state.hasIndex = true := by
  by_cases ha : s.active = false
  · simp [AbundaBrain.ingest_document, ha, hi]
  · cases hload : env.loadResult with
    | exn m => simp [AbundaBrain.ingest_document, ha, hload, hi]
    | ok docs =>
        by_cases hk : (insertLoop s.store docs env.insertFails).2
        · simp [AbundaBrain.ingest_document, ha, hload, hi, hk]
        · simp [AbundaBrain.ingest_document, ha, hload, hi, hk]

theorem stepOp_hasIndex_mono (s : AbundaBrain) (op : Op)
    (hi : s.hasIndex = true) : (stepOp s op).hasIndex = true := by
  cases op with
  | ingestOp p e => exact ingest_state_hasIndex_mono s p e hi
  | queryOp e => rw [stepOp_query_state]; exact hi

theorem runOps_hasIndex_mono (s : AbundaBrain) (ops : List Op)
    (hi : s.hasIndex = true) : (runOps s ops).hasIndex = true := by
  induction ops generalizing s with
  | nil => exact hi
  | cons op rest ih =>
      unfold runOps at *
      rw [List.foldl_cons]
      exact ih _ (stepOp_hasIndex_mono s op hi)

theorem ingest_success_state (s : AbundaBrain) (p : String) (env : IngestEnv)
    (docs : List Doc) (ha : s.active = true)
    (hl : env.loadResult = DepResult.ok docs) (hf : env.fromDocsOk = true)
    (hnf : ∀ d ∈ docs, env.insertFails d = false) :
    (s.ingest_document p env).state
      = ⟨true, true, upsertAll s.store (allFragments docs)⟩ := by
  by_cases hi : s.hasIndex = false
  · simp [AbundaBrain.ingest_document, ha, hl, hi, hf]
  · simp only [Bool.not_eq_false] at hi
    have hk : (insertLoop s.store docs env.insertFails).2 = true :=
      (insertLoop_true_iff s.store docs env.insertFails).mpr hnf
    simp [AbundaBrain.ingest_document, ha, hl, hi, hk,
      insertLoop_store_of_no_fail s.store docs env.insertFails hnf]

theorem chat_no_transport (env : ChatEnv) (history : List ChatMessage)
    (message : String) (m : String) :
    chat_endpoint env history message ≠ Except.error (PyExn.transport m) := by
  unfold chat_endpoint
  cases h : chatTry env history message with
  | ok r => simp
  | error e => simp

theorem chat_ok_sources (env : ChatEnv) (history : List ChatMessage)
    (message resp mn : String) (srcs : List String)
    (h : chat_endpoint env history message = Except.ok (resp, srcs, mn)) :
    srcs = [] := by
  unfold chat_endpoint chatTry at h
  by_cases hk : env.apiKeyPresent = false
  · simp [hk] at h
  · by_cases hm : (env.modelReady || env.initModelOk) = false
    · simp [hk, hm] at h
    · cases hs : env.sendResult (prepareHistory history) message with
      | ok t => simp [hk, hm, hs] at h; exact h.2.1
      | exn e => simp [hk, hm, hs] at h

/-- C1 counterexample: with the Engine Active over a non-empty store, a query
whose dependency call raises is caught and converted into an error string,
and the state in the result still has `active = true` - the Engine stays
Active instead of transitioning to Degraded, contradicting the claimed
`Active -> (later dependency failure) -> Degraded` transition. -/
theorem C1_counterexample :
    AbundaBrain.query ⟨true, true, [("f1", ⟨[1], "m"⟩)]⟩
        (DepResult.exn "connection refused")
      = Except.ok (⟨true, true, [("f1", ⟨[1], "m"⟩)]⟩,
          ⟨QueryOutcome.genError (queryErrorPrefix ++ "connection refused"), true⟩)
    ∧ (⟨true, true, [("f1", ⟨[1], "m"⟩)]⟩ : AbundaBrain).active = true :=
  ⟨rfl, rfl⟩

/-- C1 (amended): the initialization transitions of the state machine hold -
a fully successful `__init__` yields an active brain and an unreachable
dependency during `__init__` yields an inactive one - but a dependency
failure during a later `query` or `ingest_document` call leaves
`self.active` unchanged: the Engine never transitions from Active to
Degraded after initialization; failures are only reported in the per-call
result. -/
theorem C1_amended_state_machine :
    (∀ env : InitEnv, env.llmSetupOk = true → env.qdrantOk = true →
        env.storageOk = true → (initBrain env).active = true)
    ∧ (∀ env : InitEnv, env.qdrantOk = false → (initBrain env).active = false)
    ∧ (∀ env : InitEnv, env.llmSetupOk = false → (initBrain env).active = false)
    ∧ (∀ (s : AbundaBrain) (qe : DepResult String) (st : AbundaBrain)
        (r : QueryResult), s.query qe = Except.ok (st, r) → st.active = s.active)
    ∧ (∀ (s : AbundaBrain) (p : String) (ie : IngestEnv),
        (s.ingest_document p ie).state.active = s.active) := by
  refine ⟨?_, ?_, ?_, ?_, ?_⟩
  · intro env h1 h2 h3
    unfold initBrain
    by_cases h4 : env.loadIndexOk <;> simp [h1, h2, h3, h4]
  · intro env h2
    unfold initBrain
    by_cases h1 : env.llmSetupOk = false <;> simp [h1, h2]
  · intro env h1
    simp [initBrain, h1]
  · intro s qe st r h
    rw [query_eq] at h
    simp only [Except.ok.injEq, Prod.mk.injEq] at h
    rw [← h.1]
  · intro s p ie
    exact ingest_state_active s p ie

/-- C1 amended witness: a fully successful initialization yields an active
brain. -/
theorem C1_amended_state_machine_witness :
    (initBrain ⟨true, true, true, true, []⟩).active = true :=
  C1_amended_state_machine.1 ⟨true, true, true, true, []⟩ rfl rfl rfl

/-- C2: whenever the brain is not active, `query` returns the fixed
"Brain is disconnected" outcome without calling any dependency, and the
result is `Except.ok`, so no exception escapes to the caller. -/
theorem C2_unavailable_no_raise (s : AbundaBrain) (env : DepResult String)
    (h : s.active = false) :
    s.query env
      = Except.ok (s, ⟨QueryOutcome.unavailable disconnectedMsg, false⟩) := by
  rw [query_eq]
  simp [queryRes, h]

/-- C2 witness: querying a concrete inactive brain returns the unavailable
outcome. -/
theorem C2_unavailable_no_raise_witness :
    AbundaBrain.query ⟨false, false, []⟩ (DepResult.ok "q")
      = Except.ok (⟨false, false, []⟩,
          ⟨QueryOutcome.unavailable disconnectedMsg, false⟩) :=
  C2_unavailable_no_raise ⟨false, false, []⟩ (DepResult.ok "q") rfl

/-- C3: a query against an active brain whose index is absent (`self.index`
is None, the source representation of a knowledge base with nothing
ingested) returns the fixed "no knowledge stored yet" outcome, with
`providerCalled = false`: the retrieval / generation dependency is never
invoked, and the result is `Except.ok`, so nothing is raised. -/
theorem C3_empty_knowledge (s : AbundaBrain) (env : DepResult String)
    (ha : s.active = true) (hi : s.hasIndex = false) :
    s.query env
      = Except.ok (s, ⟨QueryOutcome.emptyKB noKnowledgeMsg, false⟩) := by
  rw [query_eq]
  simp [queryRes, ha, hi]

/-- C3 witness: querying a concrete freshly initialized brain with no index
returns the empty-knowledge-base outcome without a provider call. -/
theorem C3_empty_knowledge_witness :
    AbundaBrain.query ⟨true, false, []⟩ (DepResult.ok "q")
      = Except.ok (⟨true, false, []⟩,
          ⟨QueryOutcome.emptyKB noKnowledgeMsg, false⟩) :=
  C3_empty_knowledge ⟨true, false, []⟩ (DepResult.ok "q") rfl rfl

/-- C4 counterexample: two successful ingests whose loaded documents carry
one fragment and two fragments respectively both return the same bare value
`true` to the caller - the value returned by `ingest_document` is a bool
that cannot report the fragment count, contradicting the claimed
`{success, fragmentCount}` outcome shape. -/
theorem C4_counterexample :
    (AbundaBrain.ingest_document ⟨true, false, []⟩ "a.txt"
        ⟨DepResult.ok [⟨[("f1", ⟨[1], "m"⟩)]⟩], true, fun _ => false⟩).retVal
      = true
    ∧ (AbundaBrain.ingest_document ⟨true, false, []⟩ "a.txt"
        ⟨DepResult.ok [⟨[("f1", ⟨[1], "m"⟩)]⟩, ⟨[("f2", ⟨[2], "m"⟩)]⟩], true,
          fun _ => false⟩).retVal = true
    ∧ (AbundaBrain.ingest_document ⟨true, false, []⟩ "a.txt"
        ⟨DepResult.ok [⟨[("f1", ⟨[1], "m"⟩)]⟩], true, fun _ => false⟩).retVal
      = (AbundaBrain.ingest_document ⟨true, false, []⟩ "a.txt"
        ⟨DepResult.ok [⟨[("f1", ⟨[1], "m"⟩)]⟩, ⟨[("f2", ⟨[2], "m"⟩)]⟩], true,
          fun _ => false⟩).retVal :=
  ⟨rfl, rfl, rfl⟩

/-- C4 (amended): `ingest_document` returns only a success bool; the
fragment count N appears solely in the server log line
"Document processed (N fragments)." and is never part of the returned
value. -/
theorem C4_amended_count_logged (s : AbundaBrain) (p : String)
    (docs : List Doc) (ie : IngestEnv)
    (hl : ie.loadResult = DepResult.ok docs)
    (hr : (s.ingest_document p ie).retVal = true) :
    countMsg docs ∈ (s.ingest_document p ie).logs := by
  by_cases ha : s.active = false
  · simp [AbundaBrain.ingest_document, ha] at hr
  · by_cases hi : s.hasIndex = false
    · by_cases hf : ie.fromDocsOk
      · simp [AbundaBrain.ingest_document, ha, hl, hi, hf]
      · simp [AbundaBrain.ingest_document, ha, hl, hi, hf] at hr
    · simp only [Bool.not_eq_false] at hi
      by_cases hk : (insertLoop s.store docs ie.insertFails).2
      · simp [AbundaBrain.ingest_document, ha, hl, hi, hk]
      · simp [AbundaBrain.ingest_document, ha, hl, hi, hk] at hr

/-- C4 amended witness: a concrete successful ingest of a one-fragment
document logs the count line. -/
theorem C4_amended_count_logged_witness :
    countMsg [⟨[("f1", ⟨[1], "m"⟩)]⟩]
      ∈ (AbundaBrain.ingest_document ⟨true, false, []⟩ "a.txt"
          ⟨DepResult.ok [⟨[("f1", ⟨[1], "m"⟩)]⟩], true, fun _ => false⟩).logs :=
  C4_amended_count_logged ⟨true, false, []⟩ "a.txt" [⟨[("f1", ⟨[1], "m"⟩)]⟩]
    ⟨DepResult.ok [⟨[("f1", ⟨[1], "m"⟩)]⟩], true, fun _ => false⟩ rfl rfl

/-- C5 counterexample: a successful chat request whose generation call
returns "hello" answers with the hard-coded empty sources list - the
fragment identifiers are suppressed, contradicting the claimed
non-suppressed retrievedFragments/sources sequence. -/
theorem C5_counterexample :
    chat_endpoint
        ⟨true, true, true, "models/gemini-1.5-pro",
          fun _ _ => DepResult.ok "hello"⟩
        [⟨"user", "hi"⟩] "question"
      = Except.ok ("hello", [], "models/gemini-1.5-pro") := rfl

/-- C5 (amended): a query answered in the Active state with a present index
returns the Generation Provider text verbatim, but without any fragment
identifiers: whatever the chat endpoint returns successfully carries an
empty sources list. -/
theorem C5_amended_verbatim_no_sources (s : AbundaBrain) (t : String)
    (ha : s.active = true) (hi : s.hasIndex = true) :
    s.query (DepResult.ok t)
      = Except.ok (s, ⟨QueryOutcome.answer t, true⟩)
    ∧ ∀ (env : ChatEnv) (h : List ChatMessage) (m resp mn : String)
        (srcs : List String),
        chat_endpoint env h m = Except.ok (resp, srcs, mn) → srcs = [] := by
  constructor
  · rw [query_eq]
    simp [queryRes, ha, hi]
  · intro env h m resp mn srcs hok
    exact chat_ok_sources env h m resp mn srcs hok

/-- C5 amended witness: a concrete active brain with an index returns the
generation text verbatim. -/
theorem C5_amended_verbatim_no_sources_witness :
    AbundaBrain.query ⟨true, true, [("f1", ⟨[1], "m"⟩)]⟩ (DepResult.ok "hello")
      = Except.ok (⟨true, true, [("f1", ⟨[1], "m"⟩)]⟩,
          ⟨QueryOutcome.answer "hello", true⟩) :=
  (C5_amended_verbatim_no_sources ⟨true, true, [("f1", ⟨[1], "m"⟩)]⟩ "hello"
    rfl rfl).1

/-- C6: batch reporting semantics of `ingest_document` - whenever the call
returns True, the whole batch of the loaded documents' fragments has been
upserted into the store; and whenever any per-document insert raises, or the
index creation raises, the call returns False, so the caller is never led to
believe a partially committed ingestion succeeded. -/
theorem C6_batch_semantics (s : AbundaBrain) (p : String) (ie : IngestEnv)
    (docs : List Doc) (hl : ie.loadResult = DepResult.ok docs) :
    ((s.ingest_document p ie).retVal = true →
        (s.ingest_document p ie).state.store
          = upsertAll s.store (allFragments docs))
    ∧ ((s.active = true ∧ s.hasIndex = true
          ∧ ∃ d ∈ docs, ie.insertFails d = true) →
        (s.ingest_document p ie).retVal = false)
    ∧ ((s.active = true ∧ s.hasIndex = false ∧ ie.fromDocsOk = false) →
        (s.ingest_document p ie).retVal = false) := by
  refine ⟨?_, ?_, ?_⟩
  · intro hr
    by_cases ha : s.active = false
    · simp [AbundaBrain.ingest_document, ha] at hr
    · by_cases hi : s.hasIndex = false
      · by_cases hf : ie.fromDocsOk
        · simp [AbundaBrain.ingest_document, ha, hl, hi, hf]
        · simp [AbundaBrain.ingest_document, ha, hl, hi, hf] at hr
      · simp only [Bool.not_eq_false] at hi
        by_cases hk : (insertLoop s.store docs ie.insertFails).2
        · have hnf := (insertLoop_true_iff s.store docs ie.insertFails).mp hk
          simp [AbundaBrain.ingest_document, ha, hl, hi, hk,
            insertLoop_store_of_no_fail s.store docs ie.insertFails hnf]
        · simp [AbundaBrain.ingest_document, ha, hl, hi, hk] at hr
  · rintro ⟨ha, hi, hfail⟩
    have hk : (insertLoop s.store docs ie.insertFails).2 = false :=
      insertLoop_false_of_fail s.store docs ie.insertFails hfail
    simp [AbundaBrain.ingest_document, ha, hl, hi, hk]
  · rintro ⟨ha, hi, hf⟩
    simp [AbundaBrain.ingest_document, ha, hl, hi, hf]

/-- C6 witness: a concrete ingest whose single insert raises returns False. -/
theorem C6_batch_semantics_witness :
    (AbundaBrain.ingest_document ⟨true, true, []⟩ "a.txt"
        ⟨DepResult.ok [⟨[("f1", ⟨[1], "m"⟩)]⟩], true, fun _ => true⟩).retVal
      = false :=
  (C6_batch_semantics ⟨true, true, []⟩ "a.txt"
      ⟨DepResult.ok [⟨[("f1", ⟨[1], "m"⟩)]⟩], true, fun _ => true⟩
      [⟨[("f1", ⟨[1], "m"⟩)]⟩] rfl).2.1
    ⟨rfl, rfl, (⟨[("f1", ⟨[1], "m"⟩)]⟩ : Doc),
      List.mem_singleton_self (⟨[("f1", ⟨[1], "m"⟩)]⟩ : Doc), rfl⟩

/-- C7: ingesting the same loaded documents twice, with identical fragment
ids and no dependency failure, leaves the stored fragment count unchanged
after the second ingest, because the vector-store upsert replaces an
existing id instead of appending a second copy. -/
theorem C7_reingest_idempotent (s : AbundaBrain) (p : String)
    (docs : List Doc) (ie : IngestEnv) (ha : s.active = true)
    (hl : ie.loadResult = DepResult.ok docs) (hf : ie.fromDocsOk = true)
    (hnf : ∀ d ∈ docs, ie.insertFails d = false) :
    ((AbundaBrain.ingest_document (s.ingest_document p ie).state p
        ie).state.store).length
      = ((s.ingest_document p ie).state.store).length := by
  rw [ingest_success_state s p ie docs ha hl hf hnf]
  rw [ingest_success_state ⟨true, true, upsertAll s.store (allFragments docs)⟩
    p ie docs rfl hl hf hnf]
  exact length_upsertAll_idem s.store (allFragments docs)

/-- C7 witness: re-ingesting a concrete one-fragment document keeps the
stored count at one. -/
theorem C7_reingest_idempotent_witness :
    ((AbundaBrain.ingest_document
        (AbundaBrain.ingest_document ⟨true, false, []⟩ "a.txt"
          ⟨DepResult.ok [⟨[("f1", ⟨[1], "m"⟩)]⟩], true, fun _ => false⟩).state
        "a.txt"
        ⟨DepResult.ok [⟨[("f1", ⟨[1], "m"⟩)]⟩], true,
          fun _ => false⟩).state.store).length
      = ((AbundaBrain.ingest_document ⟨true, false, []⟩ "a.txt"
          ⟨DepResult.ok [⟨[("f1", ⟨[1], "m"⟩)]⟩], true,
            fun _ => false⟩).state.store).length :=
  C7_reingest_idempotent ⟨true, false, []⟩ "a.txt" [⟨[("f1", ⟨[1], "m"⟩)]⟩]
    ⟨DepResult.ok [⟨[("f1", ⟨[1], "m"⟩)]⟩], true, fun _ => false⟩ rfl rfl rfl
    (fun _ _ => rfl)

/-- C8: every dependency-level exception is converted at the boundary -
`query` returns `Except.ok` on every input, so the request layer always
receives a typed outcome value, and `chat_endpoint` never propagates a raw
transport exception: any exception it lets out is an HTTPException. -/
theorem C8_exception_boundary :
    (∀ (s : AbundaBrain) (qe : DepResult String),
        ∃ r : QueryResult, s.query qe = Except.ok (s, r))
    ∧ (∀ (env : ChatEnv) (h : List ChatMessage) (m msg : String),
        chat_endpoint env h m ≠ Except.error (PyExn.transport msg)) := by
  constructor
  · intro s qe
    exact ⟨queryRes s qe, query_eq s qe⟩
  · intro env h m msg
    exact chat_no_transport env h m msg

/-- C9: once `ingest_document` has returned True, `self.index` is not None
and stays not None across every subsequent ingest or query, so `query` never
again returns the empty-knowledge-base outcome. -/
theorem C9_index_persistent (s : AbundaBrain) (p : String) (ie : IngestEnv)
    (h : (s.ingest_document p ie).retVal = true) (ops : List Op) :
    (runOps (s.ingest_document p ie).state ops).hasIndex = true
    ∧ ∀ (qe : DepResult String) (st : AbundaBrain) (r : QueryResult),
        AbundaBrain.query (runOps (s.ingest_document p ie).state ops) qe
          = Except.ok (st, r) →
        ∀ m, r.outcome ≠ QueryOutcome.emptyKB m := by
  have h1 : (s.ingest_document p ie).state.hasIndex = true :=
    ingest_retVal_hasIndex s p ie h
  have h2 := runOps_hasIndex_mono _ ops h1
  refine ⟨h2, ?_⟩
  intro qe st r hq m
  rw [query_eq] at hq
  simp only [Except.ok.injEq, Prod.mk.injEq] at hq
  rw [← hq.2]
  unfold queryRes
  by_cases ha : (runOps (s.ingest_document p ie).state ops).active = false
  · simp [ha]
  · cases qe with
    | ok t => simp [ha, h2]
    | exn mm => simp [ha, h2]

/-- C9 witness: after a concrete successful ingest and a later query, the
index is still present. -/
theorem C9_index_persistent_witness :
    (runOps (AbundaBrain.ingest_document ⟨true, false, []⟩ "a.txt"
        ⟨DepResult.ok [⟨[("f1", ⟨[1], "m"⟩)]⟩], true, fun _ => false⟩).state
      [Op.queryOp (DepResult.ok "x")]).hasIndex = true :=
  (C9_index_persistent ⟨true, false, []⟩ "a.txt"
      ⟨DepResult.ok [⟨[("f1", ⟨[1], "m"⟩)]⟩], true, fun _ => false⟩ rfl
      [Op.queryOp (DepResult.ok "x")]).1

theorem prepHist_foldl_acc (history : List ChatMessage)
    (acc : List (String × List String)) :
    List.foldl (fun a msg =>
        if msg.content = "" then a
        else a ++ [((if msg.role = "user" then "user" else "model"),
          [msg.content])]) acc history
      = acc ++ List.foldl (fun a msg =>
        if msg.content = "" then a
        else a ++ [((if msg.role = "user" then "user" else "model"),
          [msg.content])]) [] history := by
  induction history generalizing acc with
  | nil => simp
  | cons m rest ih =>
      simp only [List.foldl_cons]
      rw [ih]
      conv_rhs => rw [ih]
      by_cases h : m.content = "" <;> simp [h, List.append_assoc]

/-- C10: the history forwarded to the Generation Provider by chat_endpoint
is exactly the input history with every empty-content message dropped and
every role other than "user" relabeled to "model", in the original order:
the foldl loop of the source equals the claim-side filter-then-map. -/
theorem C10_history_refinement (history : List ChatMessage) :
    prepareHistory history = prepareHistoryClaim history := by
  induction history with
  | nil => rfl
  | cons m rest ih =>
      have hcons : prepareHistory (m :: rest)
          = (if m.content = "" then []
             else [((if m.role = "user" then "user" else "model"),
               [m.content])])
            ++ prepareHistory rest := by
        unfold prepareHistory
        simp only [List.foldl_cons]
        rw [prepHist_foldl_acc]
        by_cases h : m.content = "" <;> simp [h]
      rw [hcons, ih]
      unfold prepareHistoryClaim
      simp only [List.filter_cons]
      by_cases h : m.content = ""
      · simp [h]
      · simp [h]
